import Mathlib

/-!
Verification development for the Survey-Manager repository.

The data-access facade lives in `src/utils/database.ts` (`databaseUtils`);
the backend row-level-security policies live in the SQL migrations under
`supabase/migrations/` and in the unnamed migration files.  Timestamps are
modelled as natural numbers, JavaScript `undefined` for an optional field as
`Option.none`, and the possible transient failure of a backend round trip as
an explicit fault flag or an explicit `PgError` input.
-/

/-- Question type union from `src/types/survey.ts`. -/
inductive QuestionType where
  | text
  | multipleChoice
  | multipleSelect
  | rating
  | email
  | number
  | textarea
deriving DecidableEq, Repr

/-- `Question` from `src/types/survey.ts`. -/
structure Question where
  id : String
  qtype : QuestionType
  title : String
  required : Bool
  options : Option (List String)
  maxRating : Option Nat
deriving DecidableEq, Repr

/-- Answer values: text, numeric, or list of text (`src/types/survey.ts`). -/
inductive AnswerValue where
  | text (s : String)
  | num (n : Int)
  | multi (l : List String)
deriving DecidableEq, Repr

/-- `Answer` from `src/types/survey.ts`. -/
structure Answer where
  questionId : String
  value : AnswerValue
deriving DecidableEq, Repr

/-- App-side `Survey` from `src/types/survey.ts`; optional fields are
`Option`, and `undefined` is `none`. -/
structure Survey where
  id : String
  publicId : Option String
  title : String
  description : String
  questions : List Question
  createdAt : Nat
  isActive : Bool
  allowPublicAccess : Option Bool
  responseLimit : Option Nat
  expiresAt : Option Nat
deriving DecidableEq, Repr

/-- App-side `Response` from `src/types/survey.ts`. -/
structure Response where
  id : String
  surveyId : String
  answers : List Answer
  submittedAt : Nat
deriving DecidableEq, Repr

/-- Authenticated user context (`src/types/auth.ts` usage in `database.ts`:
only the `id` field is consulted). -/
structure User where
  id : String
deriving DecidableEq, Repr

/-- A row of the `surveys` table (schema migration plus the `user_id`
column added by `20250709104936_flat_cave.sql`). -/
structure DatabaseSurvey where
  id : String
  public_id : String
  title : String
  description : String
  questions : List Question
  is_active : Bool
  allow_public_access : Bool
  response_limit : Option Nat
  expires_at : Option Nat
  created_at : Nat
  updated_at : Nat
  user_id : Option String
deriving DecidableEq, Repr

/-- A row of the `responses` table. -/
structure DatabaseResponse where
  id : String
  survey_id : String
  answers : List Answer
  submitted_at : Nat
  user_id : Option String
deriving DecidableEq, Repr

/-- The remote (Supabase) database state: the two tables. -/
structure RemoteDB where
  surveys : List DatabaseSurvey
  responses : List DatabaseResponse
deriving DecidableEq, Repr

/-- Modelled from the spec: the local-storage adapter `storageUtils`
(`src/utils/storage.ts` is not in the sources; spec section 4.3 and 6
describe it as two JSON arrays under fixed keys). -/
structure LocalStore where
  surveys : List Survey
  responses : List Response
deriving DecidableEq, Repr

/-- Combined application-visible persistent state. -/
structure AppState where
  localStore : LocalStore
  remote : RemoteDB
deriving DecidableEq, Repr

/-- A PostgREST error as consumed by `database.ts`: a `code` and a
`message`. -/
structure PgError where
  code : String
  message : String
deriving DecidableEq, Repr

/-- Does `pat` match the front of `l`? Helper for `strContains`. -/
def leadMatch : List Char → List Char → Bool
  | [], _ => true
  | _ :: _, [] => false
  | a :: as, b :: bs => a == b && leadMatch as bs

/-- Helper for `strContains`: does `pat` occur inside the character
list? -/
def strContainsAux (pat : List Char) : List Char → Bool
  | [] => pat.isEmpty
  | c :: rest => leadMatch pat (c :: rest) || strContainsAux pat rest

/-- `s.includes(pat)` on strings, as used by the error classification in
`database.ts`. -/
def strContains (s pat : String) : Bool :=
  strContainsAux pat.toList s.toList

/-- `transformDatabaseSurvey` from `database.ts`: database row to app
survey format. -/
def transformDatabaseSurvey (dbSurvey : DatabaseSurvey) : Survey :=
  { id := dbSurvey.id
    publicId := some dbSurvey.public_id
    title := dbSurvey.title
    description := dbSurvey.description
    questions := dbSurvey.questions
    isActive := dbSurvey.is_active
    allowPublicAccess := some dbSurvey.allow_public_access
    responseLimit := dbSurvey.response_limit
    expiresAt := dbSurvey.expires_at
    createdAt := dbSurvey.created_at }

/-- `transformDatabaseResponse` from `database.ts`. -/
def transformDatabaseResponse (dbResponse : DatabaseResponse) : Response :=
  { id := dbResponse.id
    surveyId := dbResponse.survey_id
    answers := dbResponse.answers
    submittedAt := dbResponse.submitted_at }

/-- The `surveys` upsert payload built by `saveSurvey`:
`transformAppSurvey` plus the explicit `user_id`; optional fields that are
`undefined` are stripped before the request, which the `Option` encodes. -/
structure SurveyRowData where
  id : String
  public_id : Option String
  title : String
  description : String
  questions : List Question
  is_active : Bool
  allow_public_access : Option Bool
  response_limit : Option Nat
  expires_at : Option Nat
  user_id : String
deriving DecidableEq, Repr

/-- `transformAppSurvey` composed with the `user_id` attachment and the
undefined-stripping loop in `saveSurvey` (`database.ts` lines 74-84). -/
def buildSurveyData (survey : Survey) (user : User) : SurveyRowData :=
  { id := survey.id
    public_id := survey.publicId
    title := survey.title
    description := survey.description
    questions := survey.questions
    is_active := survey.isActive
    allow_public_access := survey.allowPublicAccess
    response_limit := survey.responseLimit
    expires_at := survey.expiresAt
    user_id := user.id }

/-! ## Row-level-security policies from the migrations -/

/-- Policy `anon_select_public_surveys` from the unnamed migration that
fixes the surveys RLS violations (part_006): anonymous SELECT on `surveys`
requires `is_active = true AND allow_public_access = true` and nothing
else. -/
def anonSelectPublicSurveysPolicy (s : DatabaseSurvey) : Bool :=
  s.is_active && s.allow_public_access

/-- Policy `Anonymous can view public surveys` from
`20250713081314_broken_frog.sql`: anonymous SELECT on `surveys` requires
active, public access, and `expires_at IS NULL OR expires_at > now()`. -/
def anonViewPublicSurveysPolicy (now : Nat) (s : DatabaseSurvey) : Bool :=
  s.is_active && s.allow_public_access &&
    (match s.expires_at with
     | none => true
     | some e => decide (e > now))

/-- The anonymous visibility of a `surveys` row in the final migration
state: permissive policies combine with OR, and whichever of the two anon
SELECT policies ran last, `anon_select_public_surveys` (which has no
expiration clause) is never dropped afterwards, so it participates. -/
def anonSurveysVisible (now : Nat) (s : DatabaseSurvey) : Bool :=
  anonSelectPublicSurveysPolicy s || anonViewPublicSurveysPolicy now s

/-- Policy `authenticated_select_surveys` (part_006): an authenticated
caller sees a `surveys` row when they own it or it is active and
public. -/
def authenticatedSelectSurveysPolicy (uid : String) (s : DatabaseSurvey) : Bool :=
  s.user_id == some uid || (s.is_active && s.allow_public_access)

/-- Number of stored responses that reference a given survey
(`SELECT COUNT(*) FROM responses WHERE survey_id = ...`). -/
def responsesCountFor (db : RemoteDB) (surveyId : String) : Nat :=
  (db.responses.filter (fun r => r.survey_id == surveyId)).length

/-- Policy `Anyone can submit responses to active public surveys`
(`20250709104936_flat_cave.sql`, recreated identically by
`20250711073227_solitary_flame.sql`): a response INSERT is admitted only
when the referenced survey exists, is active, allows public access, is
unexpired, and is under its response limit when one is set. -/
def originalResponseInsertPolicy (db : RemoteDB) (now : Nat) (r : DatabaseResponse) : Bool :=
  db.surveys.any (fun s =>
    s.id == r.survey_id && s.is_active && s.allow_public_access &&
    (match s.expires_at with
     | none => true
     | some e => decide (e > now)) &&
    (match s.response_limit with
     | none => true
     | some l => decide (responsesCountFor db r.survey_id < l)))

/-- Policy `simple_public_insert` from
`20250712080551_silent_canyon.sql` (recreated as `allow_public_insert` by
the function-security migration, part_008, both the last migrations to
touch the responses INSERT policy): `WITH CHECK (true)`. -/
def simplePublicInsertPolicy (_db : RemoteDB) (_r : DatabaseResponse) : Bool :=
  true

/-- The two anon SELECT policies OR together to exactly the clause without
the expiration test. -/
theorem anonSurveysVisible_eq (now : Nat) (s : DatabaseSurvey) :
    anonSurveysVisible now s = anonSelectPublicSurveysPolicy s := by
  unfold anonSurveysVisible anonViewPublicSurveysPolicy anonSelectPublicSurveysPolicy
  cases h1 : s.is_active <;> cases h2 : s.allow_public_access <;> simp

/-! ## The data-access facade (`databaseUtils` in `src/utils/database.ts`)

Remote reads and writes are deterministic functions of the database state;
where a claim concerns the reaction to a transient backend failure, the
failure is an explicit input (`RemoteFaults`, or an `Option PgError` for a
write).  The local-storage branch of each operation follows the source of
`database.ts`; the `storageUtils` calls it makes are modelled from the
spec (sections 4.3 and 6) because `src/utils/storage.ts` is not among the
sources. -/

/-- `getSurveyByPublicId` (`database.ts` lines 154-176), remote branch, as
issued by an anonymous (public link) caller: the query filters on
`public_id`, `is_active` and `allow_public_access`, row-level security
restricts the visible rows, and `.single()` yields error `PGRST116` (which
the code maps to `null`) unless exactly one row results. -/
def getSurveyByPublicId (db : RemoteDB) (now : Nat) (publicId : String) :
    Except String (Option Survey) :=
  let visible := db.surveys.filter (anonSurveysVisible now)
  let hits := visible.filter (fun s =>
    s.public_id == publicId && s.is_active && s.allow_public_access)
  match hits with
  | [s] => .ok (some (transformDatabaseSurvey s))
  | _ => .ok none

/-- `.order('created_at', { ascending: false })`. -/
def sortSurveysByCreatedDesc (l : List DatabaseSurvey) : List DatabaseSurvey :=
  List.insertionSort (fun a b => b.created_at ≤ a.created_at) l

/-- `.order('submitted_at', { ascending: false })`. -/
def sortResponsesBySubmittedDesc (l : List DatabaseResponse) : List DatabaseResponse :=
  List.insertionSort (fun a b => b.submitted_at ≤ a.submitted_at) l

/-- The rows produced by the remote branch of `getSurveys` (`database.ts`
lines 131-152): row-level security (`authenticated_select_surveys` for a
signed-in caller, the anon policies otherwise), then the client-side
`.eq('user_id', user.id)` filter when a user context is present, ordered
by creation time, descending. -/
def getSurveysRemoteRows (db : RemoteDB) (user : Option User) : List DatabaseSurvey :=
  match user with
  | some u =>
      sortSurveysByCreatedDesc
        ((db.surveys.filter (authenticatedSelectSurveysPolicy u.id)).filter
          (fun s => s.user_id == some u.id))
  | none =>
      sortSurveysByCreatedDesc (db.surveys.filter (fun s => anonSurveysVisible 0 s))

/-- `getSurveys` (`database.ts` lines 131-152).  The local branch returns
the stored collection (storageUtils, modelled from the spec). -/
def getSurveys (useFallback : Bool) (st : AppState) (user : Option User) : List Survey :=
  if useFallback then st.localStore.surveys
  else (getSurveysRemoteRows st.remote user).map transformDatabaseSurvey

/-- The `{ canSubmit, reason? }` value returned by `checkSurveyLimits`. -/
structure CheckResult where
  canSubmit : Bool
  reason : Option String
deriving DecidableEq, Repr

/-- Transient backend failures that `checkSurveyLimits` can observe: the
survey lookup failing, and the response-count query failing. -/
structure RemoteFaults where
  surveyLookupFails : Bool
  countFails : Bool
deriving DecidableEq, Repr

/-- No transient backend failure. -/
def noFaults : RemoteFaults := ⟨false, false⟩

/-- `checkSurveyLimits` (`database.ts` lines 320-376).  The fallback
branch reads the local store; the remote branch looks the survey up by id
(`.single()`, so a missing row or a lookup failure both produce the
not-found result), then checks expiration (`new Date() > new
Date(expires_at)`), then, only when `response_limit` is truthy (set and
nonzero), issues the count query and compares `count && count >=
response_limit`. -/
def checkSurveyLimits (useFallback : Bool) (st : AppState) (faults : RemoteFaults)
    (surveyId : String) (now : Nat) : CheckResult :=
  if useFallback then
    match st.localStore.surveys.find? (fun s => s.id == surveyId) with
    | none => ⟨false, some "Survey not found"⟩
    | some survey =>
      if (match survey.expiresAt with
          | some e => decide (now > e)
          | none => false) then
        ⟨false, some "Survey has expired"⟩
      else
        match survey.responseLimit with
        | some l =>
          if l == 0 then ⟨true, none⟩
          else if (st.localStore.responses.filter
              (fun r => r.surveyId == surveyId)).length ≥ l then
            ⟨false, some "Response limit reached"⟩
          else ⟨true, none⟩
        | none => ⟨true, none⟩
  else
    match (st.remote.surveys.filter (fun s => s.id == surveyId)),
        faults.surveyLookupFails with
    | [survey], false =>
      if (match survey.expires_at with
          | some e => decide (now > e)
          | none => false) then
        ⟨false, some "Survey has expired"⟩
      else
        match survey.response_limit with
        | some l =>
          if l == 0 then ⟨true, none⟩
          else if faults.countFails then
            ⟨false, some "Error checking response limit"⟩
          else if responsesCountFor st.remote surveyId ≠ 0 ∧
              responsesCountFor st.remote surveyId ≥ l then
            ⟨false, some "Response limit reached"⟩
          else ⟨true, none⟩
        | none => ⟨true, none⟩
    | _, _ => ⟨false, some "Survey not found"⟩

/-! ## Error classification -/

/-- The error classification inside `saveSurvey` (`database.ts` lines
112-120): code `23505`, then code `42501`, then a message mentioning
row-level security, then the generic wrapped message. -/
def mapSaveSurveyError (e : PgError) : String :=
  if e.code == "23505" then "A survey with this ID already exists"
  else if e.code == "42501" then "Permission denied. Please ensure you are signed in."
  else if strContains e.message "violates row-level security" then
    "Access denied. Please sign in to save surveys."
  else "Database error: " ++ e.message

/-- The error classification inside `saveResponse` (`database.ts` lines
237-248): code `23503`, then code `42501`, then a message mentioning
infinite recursion, then a message mentioning row-level security, then the
generic wrapped message. -/
def mapSaveResponseError (e : PgError) : String :=
  if e.code == "23503" then "Survey not found or no longer accepting responses"
  else if e.code == "42501" then "Permission denied. Survey may be inactive."
  else if strContains e.message "infinite recursion" then
    "Database configuration error. Please contact support."
  else if strContains e.message "violates row-level security" then
    "Unable to submit response. Survey may be inactive or expired."
  else "Database error: " ++ e.message

/-! ## Writes -/

/-- Modelled from the spec: `storageUtils.saveSurvey` upserts by matching
on id (spec section 4.3). -/
def storageSaveSurvey (ls : LocalStore) (s : Survey) : LocalStore :=
  if ls.surveys.any (fun t => t.id == s.id) then
    { ls with surveys := ls.surveys.map (fun t => if t.id == s.id then s else t) }
  else
    { ls with surveys := ls.surveys ++ [s] }

/-- Modelled from the spec: `storageUtils.saveResponse` appends the new
response to the stored collection (spec sections 3 and 4.3). -/
def storageSaveResponse (ls : LocalStore) (r : Response) : LocalStore :=
  { ls with responses := ls.responses ++ [r] }

/-- Modelled from the spec: `storageUtils.deleteSurvey` removes the
matching survey and cascades to its responses (spec section 4.3). -/
def storageDeleteSurvey (ls : LocalStore) (surveyId : String) : LocalStore :=
  { surveys := ls.surveys.filter (fun s => s.id != surveyId)
    responses := ls.responses.filter (fun r => r.surveyId != surveyId) }

/-- The columns written by the `surveys` upsert when the row already
exists (`ON CONFLICT (id) DO UPDATE`): every column present in the payload
is overwritten, stripped (absent) columns keep their stored values, and
the `update_updated_at_column` trigger refreshes `updated_at`. -/
def applyUpsertColumns (old : DatabaseSurvey) (p : SurveyRowData) (now : Nat) :
    DatabaseSurvey :=
  { old with
    public_id := p.public_id.getD old.public_id
    title := p.title
    description := p.description
    questions := p.questions
    is_active := p.is_active
    allow_public_access := p.allow_public_access.getD old.allow_public_access
    response_limit := (match p.response_limit with
      | some l => some l
      | none => old.response_limit)
    expires_at := (match p.expires_at with
      | some e => some e
      | none => old.expires_at)
    user_id := some p.user_id
    updated_at := now }

/-- The row created by the `surveys` upsert on a fresh insert: stripped
columns take the schema defaults (`public_id` a server-generated token
`gpid`, `allow_public_access` true, timestamps `now()`). -/
def insertRowOfPayload (p : SurveyRowData) (now : Nat) (gpid : String) : DatabaseSurvey :=
  { id := p.id
    public_id := p.public_id.getD gpid
    title := p.title
    description := p.description
    questions := p.questions
    is_active := p.is_active
    allow_public_access := p.allow_public_access.getD true
    response_limit := p.response_limit
    expires_at := p.expires_at
    created_at := now
    updated_at := now
    user_id := some p.user_id }

/-- Row-level-security rejection of a `surveys` write. -/
def rlsSurveysError : PgError :=
  ⟨"42501", "new row violates row-level security policy for table surveys"⟩

/-- Uniqueness violation on insert/upsert. -/
def uniqueViolationError : PgError :=
  ⟨"23505", "duplicate key value violates unique constraint"⟩

/-- Foreign-key violation on a `responses` insert. -/
def fkViolationError : PgError :=
  ⟨"23503", "insert or update on table responses violates foreign key constraint"⟩

/-- The backend `surveys` upsert issued by `saveSurvey` (`.upsert(...,
{ onConflict: 'id' })`), run as the authenticated user `p.user_id`: an
existing row the caller does not own fails the UPDATE policies
(`authenticated_update_surveys`); the unique `public_id` column rejects a
value already used by a different row; otherwise the row is written and
returned. -/
def upsertSurveyRow (db : RemoteDB) (p : SurveyRowData) (now : Nat) (gpid : String) :
    Except PgError (DatabaseSurvey × RemoteDB) :=
  match db.surveys.find? (fun r => r.id == p.id) with
  | some old =>
    if old.user_id ≠ some p.user_id then .error rlsSurveysError
    else
      let newRow := applyUpsertColumns old p now
      if db.surveys.any (fun r => r.id != p.id && r.public_id == newRow.public_id) then
        .error uniqueViolationError
      else
        .ok (newRow,
          { db with surveys := db.surveys.map (fun r => if r.id == p.id then newRow else r) })
  | none =>
    let newRow := insertRowOfPayload p now gpid
    if db.surveys.any (fun r => r.public_id == newRow.public_id) then
      .error uniqueViolationError
    else
      .ok (newRow, { db with surveys := newRow :: db.surveys })

/-- `saveSurvey` (`database.ts` lines 55-129).  The fallback branch always
succeeds against the local store; the remote branch requires a user
context, builds the payload with the owner id attached, validates title
and questions (`!title` fails only on an empty title, since `questions` is
always an array), and classifies any backend error through
`mapSaveSurveyError`.  A transient backend failure is the explicit
`fault` input. -/
def saveSurvey (useFallback : Bool) (st : AppState) (survey : Survey)
    (user : Option User) (now : Nat) (gpid : String) (fault : Option PgError) :
    Except String (Survey × AppState) :=
  if useFallback then
    .ok (survey, { st with localStore := storageSaveSurvey st.localStore survey })
  else
    match user with
    | none => .error "Authentication required to save surveys"
    | some u =>
      let p := buildSurveyData survey u
      if p.title == "" then .error "Survey title and questions are required"
      else
        match fault with
        | some e => .error (mapSaveSurveyError e)
        | none =>
          match upsertSurveyRow st.remote p now gpid with
          | .error e => .error (mapSaveSurveyError e)
          | .ok (row, db2) =>
            .ok (transformDatabaseSurvey row, { st with remote := db2 })

/-- The `responses` insert issued by `saveResponse`, in the final
migration state: the foreign key to `surveys` and the primary key are
checked, and the operative INSERT policy (`simple_public_insert` /
`allow_public_insert`, `WITH CHECK (true)`) admits every row.  The
`set_response_user_id` trigger stores the session user id when one exists
and leaves the column null for anonymous submissions. -/
def insertResponseRow (db : RemoteDB) (r : DatabaseResponse) : Except PgError RemoteDB :=
  if !(db.surveys.any (fun s => s.id == r.survey_id)) then .error fkViolationError
  else if db.responses.any (fun t => t.id == r.id) then .error uniqueViolationError
  else if !(simplePublicInsertPolicy db r) then .error rlsSurveysError
  else .ok { db with responses := db.responses ++ [r] }

/-- `saveResponse` (`database.ts` lines 200-257): no user context is
required; the row is built from the response with `user_id` left to the
trigger (`sessionUid`), and backend errors are classified through
`mapSaveResponseError`. -/
def saveResponse (useFallback : Bool) (st : AppState) (response : Response)
    (sessionUid : Option String) (fault : Option PgError) :
    Except String (Response × AppState) :=
  if useFallback then
    .ok (response, { st with localStore := storageSaveResponse st.localStore response })
  else
    let row : DatabaseResponse :=
      { id := response.id
        survey_id := response.surveyId
        answers := response.answers
        submitted_at := response.submittedAt
        user_id := sessionUid }
    match fault with
    | some e => .error (mapSaveResponseError e)
    | none =>
      match insertResponseRow st.remote row with
      | .error e => .error (mapSaveResponseError e)
      | .ok db2 => .ok (transformDatabaseResponse row, { st with remote := db2 })

/-- The remote branch of `deleteSurvey` (`database.ts` lines 178-197):
`.delete().eq('id', surveyId)` plus `.eq('user_id', user.id)` when a user
context is present; row-level security (`authenticated_delete_surveys`,
and no DELETE policy for the anon role) means only rows owned by the
session user are ever removed, and the foreign key cascades the removal to
the survey's responses.  Deleting zero rows is not an error. -/
def remoteDeleteSurvey (db : RemoteDB) (surveyId : String) (user : Option User) : RemoteDB :=
  let pred : DatabaseSurvey → Bool := fun s =>
    s.id == surveyId &&
      (match user with
       | some u => s.user_id == some u.id
       | none => false)
  let deleted := db.surveys.filter pred
  { surveys := db.surveys.filter (fun s => !(pred s))
    responses := db.responses.filter
      (fun r => !(deleted.any (fun s => s.id == r.survey_id))) }

/-- `deleteSurvey` (`database.ts` lines 178-197). -/
def deleteSurvey (useFallback : Bool) (st : AppState) (surveyId : String)
    (user : Option User) (fault : Option PgError) : Except String AppState :=
  if useFallback then
    .ok { st with localStore := storageDeleteSurvey st.localStore surveyId }
  else
    match fault with
    | some _ => .error "Failed to delete survey"
    | none => .ok { st with remote := remoteDeleteSurvey st.remote surveyId user }

/-- `getResponsesForSurvey` (`database.ts` lines 259-290): with a user
context, the ownership probe (`.select('user_id').eq('id',
surveyId).eq('user_id', user.id).single()`) must return exactly one row,
otherwise the access-denied error is thrown; then all responses of the
survey are returned ordered by submission time, descending (the
authenticated SELECT policy on responses is `USING (true)`). -/
def getResponsesForSurvey (useFallback : Bool) (st : AppState) (surveyId : String)
    (user : Option User) : Except String (List Response) :=
  if useFallback then
    .ok (st.localStore.responses.filter (fun r => r.surveyId == surveyId))
  else
    let ownershipOk : Bool :=
      match user with
      | some u =>
        (st.remote.surveys.filter
          (fun s => s.id == surveyId && s.user_id == some u.id)).length == 1
      | none => true
    if !ownershipOk then .error "Survey not found or access denied"
    else
      .ok ((sortResponsesBySubmittedDesc
        (st.remote.responses.filter (fun r => r.survey_id == surveyId))).map
          transformDatabaseResponse)

/-! ## Derived comparisons and sample states -/

/-- Field-by-field agreement of two app surveys on everything except the
server-assigned `createdAt`. -/
def surveyMatchesExceptCreatedAt (a b : Survey) : Bool :=
  a.id == b.id && a.publicId == b.publicId && a.title == b.title &&
  a.description == b.description && a.questions == b.questions &&
  a.isActive == b.isActive && a.allowPublicAccess == b.allowPublicAccess &&
  a.responseLimit == b.responseLimit && a.expiresAt == b.expiresAt

instance instTotalSubmittedDesc :
    IsTotal DatabaseResponse (fun a b => b.submitted_at ≤ a.submitted_at) :=
  ⟨fun a b => Nat.le_total b.submitted_at a.submitted_at⟩

instance instTransSubmittedDesc :
    IsTrans DatabaseResponse (fun a b => b.submitted_at ≤ a.submitted_at) :=
  ⟨fun _ _ _ hab hbc => Nat.le_trans hbc hab⟩

/-- An empty local store, for states that only exercise the remote
branch. -/
def emptyLocal : LocalStore := ⟨[], []⟩

/-- An application state around a given remote database. -/
def mkState (db : RemoteDB) : AppState := ⟨emptyLocal, db⟩

/-- A baseline active public survey row for concrete test states. -/
def baseDbSurvey : DatabaseSurvey :=
  { id := "s"
    public_id := "p"
    title := "T"
    description := ""
    questions := []
    is_active := true
    allow_public_access := true
    response_limit := none
    expires_at := none
    created_at := 0
    updated_at := 0
    user_id := some "u" }

/-- C1 sample: an active public survey whose expiration is in the past. -/
def c1Survey : DatabaseSurvey :=
  { baseDbSurvey with id := "s1", public_id := "p1", expires_at := some 5 }

/-- C1 sample database. -/
def c1DB : RemoteDB := ⟨[c1Survey], []⟩

/-- C2 sample: a survey with response limit 1. -/
def c2Survey : DatabaseSurvey :=
  { baseDbSurvey with id := "s2", public_id := "p2", response_limit := some 1 }

/-- C2 sample: the one response already stored for `c2Survey`. -/
def c2StoredResponse : DatabaseResponse :=
  { id := "r2a", survey_id := "s2", answers := [], submitted_at := 0, user_id := none }

/-- C2 sample database at the response-limit boundary. -/
def c2DB : RemoteDB := ⟨[c2Survey], [c2StoredResponse]⟩

/-- C2 sample: a fresh response row a client tries to insert. -/
def c2NewRow : DatabaseResponse :=
  { id := "r2b", survey_id := "s2", answers := [], submitted_at := 1, user_id := none }

/-- C2 witness sample: an open survey with one response under a limit of
two, which the original enforcing policy admits. -/
def c2OpenSurvey : DatabaseSurvey :=
  { baseDbSurvey with id := "s2", public_id := "p2", response_limit := some 2 }

/-- C2 witness sample database. -/
def c2OpenDB : RemoteDB := ⟨[c2OpenSurvey], [c2StoredResponse]⟩

/-- C3 sample: a survey with a response limit whose count query fails. -/
def c3aSurvey : DatabaseSurvey :=
  { baseDbSurvey with id := "s3a", public_id := "p3a", response_limit := some 2 }

/-- C3 sample database for the count-failure scenario. -/
def c3aDB : RemoteDB := ⟨[c3aSurvey], []⟩

/-- C3 sample: an expired survey that is also at its response limit. -/
def c3bSurvey : DatabaseSurvey :=
  { baseDbSurvey with
    id := "s3b", public_id := "p3b", response_limit := some 1, expires_at := some 5 }

/-- C3 sample: the stored response that fills `c3bSurvey`'s limit. -/
def c3bStoredResponse : DatabaseResponse :=
  { id := "r3b", survey_id := "s3b", answers := [], submitted_at := 0, user_id := none }

/-- C3 sample database for the expired-and-at-limit scenario. -/
def c3bDB : RemoteDB := ⟨[c3bSurvey], [c3bStoredResponse]⟩

/-- C3 witness sample: an unexpired survey at its response limit. -/
def c3cSurvey : DatabaseSurvey :=
  { baseDbSurvey with id := "s3c", public_id := "p3c", response_limit := some 1 }

/-- C3 witness sample: the response filling `c3cSurvey`'s limit. -/
def c3cStoredResponse : DatabaseResponse :=
  { id := "r3c", survey_id := "s3c", answers := [], submitted_at := 0, user_id := none }

/-- C3 witness sample database. -/
def c3cDB : RemoteDB := ⟨[c3cSurvey], [c3cStoredResponse]⟩

/-- C4 sample: a private survey owned by user A. -/
def c4SurveyA : DatabaseSurvey :=
  { baseDbSurvey with
    id := "s4a", public_id := "p4a", is_active := false,
    allow_public_access := false, user_id := some "A" }

/-- C4 sample: a private survey owned by user B. -/
def c4SurveyB : DatabaseSurvey :=
  { baseDbSurvey with
    id := "s4b", public_id := "p4b", is_active := false,
    allow_public_access := false, user_id := some "B" }

/-- C4 sample database holding both users' surveys. -/
def c4DB : RemoteDB := ⟨[c4SurveyA, c4SurveyB], []⟩

/-- C5 sample survey for the witness. -/
def c5Survey : Survey :=
  { id := "s5"
    publicId := some "p5"
    title := "T5"
    description := "d"
    questions := []
    createdAt := 0
    isActive := true
    allowPublicAccess := some true
    responseLimit := none
    expiresAt := none }

/-- C5 sample: an unclassified backend error. -/
def c5GenericError : PgError := ⟨"XX000", "boom"⟩

/-- C6 counterexample input: a backend error reporting infinite policy
recursion, which is none of the classified categories. -/
def c6RecursionError : PgError :=
  ⟨"XX000", "infinite recursion detected in policy for relation responses"⟩

/-- C6 sample: an unclassified backend error for the witness. -/
def c6GenericError : PgError := ⟨"08000", "connection lost"⟩

/-- C6 witness sample survey. -/
def c6Survey : DatabaseSurvey := { baseDbSurvey with id := "s6", public_id := "p6" }

/-- C6 witness sample database. -/
def c6DB : RemoteDB := ⟨[c6Survey], []⟩

/-- C6 witness sample: an anonymous public submission. -/
def c6Response : Response :=
  { id := "r6", surveyId := "s6", answers := [], submittedAt := 4 }

/-- C7 sample: a survey owned by user u7. -/
def c7Survey : DatabaseSurvey :=
  { baseDbSurvey with id := "s7", public_id := "p7", user_id := some "u7" }

/-- C7 sample responses with distinct submission times. -/
def c7RespEarly : DatabaseResponse :=
  { id := "r7a", survey_id := "s7", answers := [], submitted_at := 1, user_id := none }

/-- C7 sample responses with distinct submission times. -/
def c7RespLate : DatabaseResponse :=
  { id := "r7b", survey_id := "s7", answers := [], submitted_at := 9, user_id := none }

/-- C7 sample database. -/
def c7DB : RemoteDB := ⟨[c7Survey], [c7RespEarly, c7RespLate]⟩

/-- C8 counterexample part 1: a survey saved without a `publicId`. -/
def c8NoPidSurvey : Survey :=
  { id := "s8a"
    publicId := none
    title := "T8"
    description := ""
    questions := []
    createdAt := 3
    isActive := true
    allowPublicAccess := some true
    responseLimit := none
    expiresAt := none }

/-- C8 counterexample part 2: the stored row that an upsert will update,
carrying a response limit. -/
def c8OldRow : DatabaseSurvey :=
  { baseDbSurvey with
    id := "s8b", public_id := "p8b", response_limit := some 5, user_id := some "U" }

/-- C8 counterexample part 2: the same survey saved again with its
`responseLimit` unset. -/
def c8NoLimitSurvey : Survey :=
  { id := "s8b"
    publicId := some "p8b"
    title := "T8"
    description := ""
    questions := []
    createdAt := 3
    isActive := true
    allowPublicAccess := some true
    responseLimit := none
    expiresAt := none }

/-- C8 witness survey: all optional fields set. -/
def c8FullSurvey : Survey :=
  { id := "s8w"
    publicId := some "p8w"
    title := "T8"
    description := "d"
    questions := []
    createdAt := 3
    isActive := true
    allowPublicAccess := some false
    responseLimit := some 7
    expiresAt := some 100 }

/-- C8 witness: the row the upsert writes for `c8FullSurvey`. -/
def c8wRow : DatabaseSurvey :=
  { id := "s8w"
    public_id := "p8w"
    title := "T8"
    description := "d"
    questions := []
    is_active := true
    allow_public_access := false
    response_limit := some 7
    expires_at := some 100
    created_at := 7
    updated_at := 7
    user_id := some "U" }

/-- C8 witness: the state after saving `c8FullSurvey` into an empty
store. -/
def c8wState2 : AppState := ⟨emptyLocal, ⟨[c8wRow], []⟩⟩

/-- C8 witness: the survey returned by the save. -/
def c8wReturned : Survey := transformDatabaseSurvey c8wRow

/-- C9 witness sample: a survey owned by u9 together with one of its
responses. -/
def c9Survey : DatabaseSurvey :=
  { baseDbSurvey with id := "s9", public_id := "p9", user_id := some "u9" }

/-- C9 witness sample response. -/
def c9Response : DatabaseResponse :=
  { id := "r9", survey_id := "s9", answers := [], submitted_at := 2, user_id := none }

/-- C9 witness sample state. -/
def c9State : AppState :=
  ⟨⟨[transformDatabaseSurvey c9Survey], [transformDatabaseResponse c9Response]⟩,
    ⟨[c9Survey], [c9Response]⟩⟩

/-! ## Helper lemmas -/

/-- With distinct survey ids, filtering on an id that some stored survey
carries yields exactly that survey. -/
theorem filter_by_id_eq_singleton (l : List DatabaseSurvey) (s : DatabaseSurvey)
    (sid : String) (hN : (l.map (fun t => t.id)).Nodup) (hs : s ∈ l) (hid : s.id = sid) :
    l.filter (fun t => t.id == sid) = [s] := by
  induction l with
  | nil => cases hs
  | cons a as ih =>
    rw [List.map_cons, List.nodup_cons] at hN
    rcases List.mem_cons.mp hs with h | h
    · subst h
      rw [List.filter_cons_of_pos (by simp [hid])]
      have : as.filter (fun t => t.id == sid) = [] := by
        apply List.filter_eq_nil_iff.mpr
        intro t ht hteq
        exact hN.1 (hid ▸ (beq_iff_eq.mp hteq) ▸ List.mem_map_of_mem (fun t => t.id) ht)
      rw [this]
    · have hne : ¬ (a.id == sid) = true := by
        intro hcontra
        apply hN.1
        have : a.id = s.id := by rw [beq_iff_eq.mp hcontra, hid]
        rw [this]
        exact List.mem_map_of_mem (fun t => t.id) h
      rw [List.filter_cons, if_neg hne]
      exact ih hN.2 h

/-- Every result of `checkSurveyLimits` is either a clean go-ahead or a
refusal carrying one of the four reason strings that occur in the
source. -/
theorem checkSurveyLimits_reason_cases (useFallback : Bool) (st : AppState)
    (faults : RemoteFaults) (surveyId : String) (now : Nat) :
    ((checkSurveyLimits useFallback st faults surveyId now).canSubmit = true ∧
      (checkSurveyLimits useFallback st faults surveyId now).reason = none) ∨
    ((checkSurveyLimits useFallback st faults surveyId now).canSubmit = false ∧
      ((checkSurveyLimits useFallback st faults surveyId now).reason = some "Survey not found" ∨
       (checkSurveyLimits useFallback st faults surveyId now).reason = some "Survey has expired" ∨
       (checkSurveyLimits useFallback st faults surveyId now).reason = some "Response limit reached" ∨
       (checkSurveyLimits useFallback st faults surveyId now).reason =
         some "Error checking response limit")) := by
  unfold checkSurveyLimits
  repeat' split
  all_goals simp

/-! ## Claims -/

/-- C1: the claim requires `getSurveyByPublicId` to return absent whenever
the survey's expiration lies in the past, but in the final migration state
the anonymous SELECT policy on `surveys` carries no expiration clause, so
the public lookup of an expired, active, public survey still returns the
survey: at time 10 the survey `c1Survey` (expiring at 5, so rejected by the
expiry-checking policy of `20250713081314_broken_frog.sql`) is returned. -/
theorem claim_C1_expired_survey_returned :
    c1Survey.expires_at = some 5 ∧
    anonViewPublicSurveysPolicy 10 c1Survey = false ∧
    getSurveyByPublicId c1DB 10 "p1" =
      .ok (some (transformDatabaseSurvey c1Survey)) :=
  ⟨rfl, rfl, rfl⟩

/-- C10: `checkSurveyLimits` (remote mode) always returns a
`{ canSubmit, reason? }` value: every refusal carries one of the four
reason strings occurring in the source, and in particular a failing survey
lookup is reported as `canSubmit = false` with the not-found reason rather
than surfacing as a thrown error. -/
theorem claim_C10_checkSurveyLimits_never_throws :
    (∀ (st : AppState) (faults : RemoteFaults) (surveyId : String) (now : Nat),
      ((checkSurveyLimits false st faults surveyId now).canSubmit = true ∧
        (checkSurveyLimits false st faults surveyId now).reason = none) ∨
      ((checkSurveyLimits false st faults surveyId now).canSubmit = false ∧
        ((checkSurveyLimits false st faults surveyId now).reason = some "Survey not found" ∨
         (checkSurveyLimits false st faults surveyId now).reason = some "Survey has expired" ∨
         (checkSurveyLimits false st faults surveyId now).reason = some "Response limit reached" ∨
         (checkSurveyLimits false st faults surveyId now).reason =
           some "Error checking response limit"))) ∧
    (∀ (st : AppState) (b : Bool) (surveyId : String) (now : Nat),
      checkSurveyLimits false st ⟨true, b⟩ surveyId now =
        ⟨false, some "Survey not found"⟩) := by
  constructor
  · intro st faults surveyId now
    exact checkSurveyLimits_reason_cases false st faults surveyId now
  · intro st b surveyId now
    unfold checkSurveyLimits
    repeat' split
    all_goals simp_all

/-- Filtering for a predicate after filtering for its negation yields
nothing. -/
theorem filter_pred_filter_not_pred {α : Type} (p : α → Bool) (l : List α) :
    List.filter p (List.filter (fun a => !(p a)) l) = [] := by
  rw [List.filter_filter]
  apply List.filter_eq_nil_iff.mpr
  intro a _
  simp

/-- Filtering twice with the same predicate is the same as filtering
once. -/
theorem filter_self_idem {α : Type} (q : α → Bool) (l : List α) :
    List.filter q (List.filter q l) = List.filter q l := by
  rw [List.filter_filter]
  simp

/-- Deleting the same survey id twice leaves the remote state of the first
deletion unchanged. -/
theorem remoteDeleteSurvey_idem (db : RemoteDB) (surveyId : String) (user : Option User) :
    remoteDeleteSurvey (remoteDeleteSurvey db surveyId user) surveyId user =
      remoteDeleteSurvey db surveyId user := by
  unfold remoteDeleteSurvey
  simp only [RemoteDB.mk.injEq]
  constructor
  · exact filter_self_idem _ _
  · rw [filter_pred_filter_not_pred]
    simp

/-- C9: `deleteSurvey` is idempotent — a second call with the same id (in
either storage mode, with any optional user context) succeeds and leaves
the state produced by the first call unchanged. -/
theorem claim_C9_deleteSurvey_idempotent (useFallback : Bool) (st st1 : AppState)
    (surveyId : String) (user : Option User)
    (h : deleteSurvey useFallback st surveyId user none = .ok st1) :
    deleteSurvey useFallback st1 surveyId user none = .ok st1 := by
  cases useFallback
  case true =>
    simp only [deleteSurvey, if_true] at h ⊢
    have h1 : ({ st with localStore := storageDeleteSurvey st.localStore surveyId } :
        AppState) = st1 := by
      exact Except.ok.inj h
    rw [← h1]
    simp [storageDeleteSurvey, List.filter_filter]
  case false =>
    simp only [deleteSurvey, if_false] at h ⊢
    have h1 : ({ st with remote := remoteDeleteSurvey st.remote surveyId user } :
        AppState) = st1 := by
      exact Except.ok.inj h
    rw [← h1]
    simp [remoteDeleteSurvey_idem]

/-- C9 witness: deleting the already-deleted survey `s9` again is a
no-op. -/
theorem claim_C9_witness :
    deleteSurvey false ({ c9State with remote := ⟨[], []⟩ }) "s9"
        (some ⟨"u9"⟩) none =
      .ok ({ c9State with remote := ⟨[], []⟩ }) :=
  claim_C9_deleteSurvey_idempotent false c9State _ "s9" (some ⟨"u9"⟩) rfl

/-- Every row of the remote `getSurveys` result under a user context is
owned by that user. -/
theorem getSurveysRemoteRows_owned (db : RemoteDB) (a : User) (s : DatabaseSurvey)
    (hs : s ∈ getSurveysRemoteRows db (some a)) : s.user_id = some a.id := by
  unfold getSurveysRemoteRows sortSurveysByCreatedDesc at hs
  rw [List.mem_insertionSort, List.mem_filter] at hs
  exact beq_iff_eq.mp hs.2

/-- C4: `getSurveys` under user A's context only ever yields rows whose
stored owner is A; in particular no survey owned by a distinct user B
(public or private) appears, and appending any number of surveys that A
does not own to the table leaves A's result unchanged. -/
theorem claim_C4_ownership_isolation :
    (∀ (db : RemoteDB) (a : User) (s : DatabaseSurvey),
        s ∈ getSurveysRemoteRows db (some a) → s.user_id = some a.id) ∧
    (∀ (db : RemoteDB) (a b : User), b.id ≠ a.id →
        ∀ (s : DatabaseSurvey), s ∈ getSurveysRemoteRows db (some a) →
          s.user_id ≠ some b.id) ∧
    (∀ (db : RemoteDB) (a : User) (extra : List DatabaseSurvey),
        (∀ t ∈ extra, t.user_id ≠ some a.id) →
        getSurveysRemoteRows { db with surveys := db.surveys ++ extra } (some a) =
          getSurveysRemoteRows db (some a)) := by
  refine ⟨getSurveysRemoteRows_owned, ?_, ?_⟩
  · intro db a b hne s hs hb
    have ha := getSurveysRemoteRows_owned db a s hs
    rw [ha] at hb
    exact hne (Option.some.inj hb).symm
  · intro db a extra hextra
    have hnil : List.filter (fun s => s.user_id == some a.id)
        (List.filter (authenticatedSelectSurveysPolicy a.id) extra) = [] := by
      apply List.filter_eq_nil_iff.mpr
      intro t ht hbeq
      exact hextra t (List.mem_filter.mp ht).1 (beq_iff_eq.mp hbeq)
    dsimp only [getSurveysRemoteRows, sortSurveysByCreatedDesc]
    congr 1
    rw [List.filter_append, List.filter_append, hnil, List.append_nil]

/-- C4 witness: user A's rows exclude user B's private survey, and adding
B's private survey to the table does not change A's result. -/
theorem claim_C4_witness :
    (c4SurveyA.user_id ≠ some "B") ∧
    (getSurveysRemoteRows { (⟨[c4SurveyA], []⟩ : RemoteDB) with
        surveys := (⟨[c4SurveyA], []⟩ : RemoteDB).surveys ++ [c4SurveyB] } (some ⟨"A"⟩) =
      getSurveysRemoteRows ⟨[c4SurveyA], []⟩ (some ⟨"A"⟩)) :=
  ⟨claim_C4_ownership_isolation.2.1 c4DB ⟨"A"⟩ ⟨"B"⟩ (by decide) c4SurveyA (by decide),
   claim_C4_ownership_isolation.2.2 ⟨[c4SurveyA], []⟩ ⟨"A"⟩ [c4SurveyB] (by decide)⟩

/-- C2 counterexample: at the boundary where the stored response count
equals the configured limit, `checkSurveyLimits` refuses but the operative
backend INSERT policy (`WITH CHECK (true)`) admits the insert, so the two
checks do not evaluate the admission condition identically. -/
theorem claim_C2_counterexample :
    checkSurveyLimits false (mkState c2DB) noFaults "s2" 0 =
      ⟨false, some "Response limit reached"⟩ ∧
    c2Survey.response_limit = some 1 ∧
    responsesCountFor c2DB "s2" = 1 ∧
    simplePublicInsertPolicy c2DB c2NewRow = true :=
  ⟨rfl, rfl, rfl, rfl⟩

/-- C2 (amended): the operative INSERT policy admits every response, so
the backend never rejects; conversely the client-side check is a
refinement of the original (dropped) enforcing policy: whenever that
policy admits an insert, `checkSurveyLimits` (absent backend faults, with
distinct survey ids) also answers `canSubmit = true`. -/
theorem claim_C2_amended :
    (∀ (db : RemoteDB) (r : DatabaseResponse), simplePublicInsertPolicy db r = true) ∧
    (∀ (ls : LocalStore) (db : RemoteDB) (r : DatabaseResponse) (now : Nat),
      (db.surveys.map (fun t => t.id)).Nodup →
      originalResponseInsertPolicy db now r = true →
      (checkSurveyLimits false ⟨ls, db⟩ noFaults r.survey_id now).canSubmit = true) := by
  constructor
  · intro db r
    rfl
  · intro ls db r now hN hpol
    unfold originalResponseInsertPolicy at hpol
    rw [List.any_eq_true] at hpol
    obtain ⟨s, hs, hcond⟩ := hpol
    simp only [Bool.and_eq_true] at hcond
    obtain ⟨⟨⟨⟨hid, hact⟩, hpub⟩, hexp⟩, hlim⟩ := hcond
    replace hid := beq_iff_eq.mp hid
    have hfilter := filter_by_id_eq_singleton db.surveys s r.survey_id hN hs hid
    unfold checkSurveyLimits
    simp only [Bool.false_eq_true, if_false]
    rw [hfilter]
    dsimp only [noFaults]
    have hexpcond :
        (match s.expires_at with
         | some e => decide (now > e)
         | none => false) = false := by
      cases he : s.expires_at with
      | none => rfl
      | some e =>
        rw [he] at hexp
        simp only [decide_eq_true_eq] at hexp
        simp only [decide_eq_false_iff_not]
        omega
    rw [if_neg (by rw [hexpcond]; exact Bool.false_ne_true)]
    cases hl : s.response_limit with
    | none => rfl
    | some l =>
      rw [hl] at hlim
      simp only [decide_eq_true_eq] at hlim
      dsimp only
      by_cases hz : (l == 0) = true
      · rw [if_pos hz]
      · rw [if_neg hz]
        have hnot : ¬(responsesCountFor db r.survey_id ≠ 0 ∧
            responsesCountFor db r.survey_id ≥ l) := by omega
        rw [if_neg hnot]
        rfl

/-- C2 witness: the operative policy admits a concrete insert, and on a
state the original policy admits, the client check also answers yes. -/
theorem claim_C2_witness :
    simplePublicInsertPolicy c2OpenDB c2NewRow = true ∧
    (checkSurveyLimits false ⟨emptyLocal, c2OpenDB⟩ noFaults c2NewRow.survey_id 0).canSubmit =
      true :=
  ⟨claim_C2_amended.1 c2OpenDB c2NewRow,
   claim_C2_amended.2 emptyLocal c2OpenDB c2NewRow 0 (by decide) (by decide)⟩

/-- C3 counterexample: a failing response-count query yields the reason
string `Error checking response limit`, which is outside the claim's
three-reason set, and an expired survey that is also at its response limit
reports the expiration reason, not the limit reason. -/
theorem claim_C3_counterexample :
    checkSurveyLimits false (mkState c3aDB) ⟨false, true⟩ "s3a" 0 =
      ⟨false, some "Error checking response limit"⟩ ∧
    ("Error checking response limit" ∉
      (["Survey not found", "Survey has expired", "Response limit reached"] : List String)) ∧
    responsesCountFor c3bDB "s3b" = 1 ∧
    c3bSurvey.response_limit = some 1 ∧
    checkSurveyLimits false (mkState c3bDB) noFaults "s3b" 10 =
      ⟨false, some "Survey has expired"⟩ :=
  ⟨rfl, by decide, rfl, rfl, rfl⟩

/-- C3 (amended): `checkSurveyLimits` (remote mode) reports the missing
reason when no stored survey has the id, the expired reason when the found
survey's expiration is past (this takes precedence over the limit reason),
the limit-reached reason when the unexpired survey has limit `l ≥ 1` and
at least `l` responses and the backend queries succeed, and every refusal
reason comes from the three claimed strings plus the count-query-failure
reason. -/
theorem claim_C3_amended :
    (∀ (st : AppState) (faults : RemoteFaults) (surveyId : String) (now : Nat),
      (∀ s ∈ st.remote.surveys, ¬ s.id = surveyId) →
      checkSurveyLimits false st faults surveyId now = ⟨false, some "Survey not found"⟩) ∧
    (∀ (st : AppState) (cf : Bool) (surveyId : String) (now e : Nat) (s : DatabaseSurvey),
      (st.remote.surveys.map (fun t => t.id)).Nodup → s ∈ st.remote.surveys →
      s.id = surveyId → s.expires_at = some e → now > e →
      checkSurveyLimits false st ⟨false, cf⟩ surveyId now =
        ⟨false, some "Survey has expired"⟩) ∧
    (∀ (st : AppState) (surveyId : String) (now l : Nat) (s : DatabaseSurvey),
      (st.remote.surveys.map (fun t => t.id)).Nodup → s ∈ st.remote.surveys →
      s.id = surveyId → (∀ e, s.expires_at = some e → ¬ now > e) →
      s.response_limit = some l → 1 ≤ l → l ≤ responsesCountFor st.remote surveyId →
      checkSurveyLimits false st noFaults surveyId now =
        ⟨false, some "Response limit reached"⟩) ∧
    (∀ (st : AppState) (faults : RemoteFaults) (surveyId : String) (now : Nat),
      ((checkSurveyLimits false st faults surveyId now).canSubmit = true ∧
        (checkSurveyLimits false st faults surveyId now).reason = none) ∨
      ((checkSurveyLimits false st faults surveyId now).canSubmit = false ∧
        ((checkSurveyLimits false st faults surveyId now).reason = some "Survey not found" ∨
         (checkSurveyLimits false st faults surveyId now).reason = some "Survey has expired" ∨
         (checkSurveyLimits false st faults surveyId now).reason =
           some "Response limit reached" ∨
         (checkSurveyLimits false st faults surveyId now).reason =
           some "Error checking response limit"))) := by
  refine ⟨?_, ?_, ?_, fun st faults surveyId now =>
    checkSurveyLimits_reason_cases false st faults surveyId now⟩
  · intro st faults surveyId now hmiss
    have hfilter : st.remote.surveys.filter (fun t => t.id == surveyId) = [] := by
      apply List.filter_eq_nil_iff.mpr
      intro t ht hbeq
      exact hmiss t ht (beq_iff_eq.mp hbeq)
    unfold checkSurveyLimits
    simp only [Bool.false_eq_true, if_false]
    rw [hfilter]
  · intro st cf surveyId now e s hN hs hid he hlate
    have hfilter := filter_by_id_eq_singleton st.remote.surveys s surveyId hN hs hid
    unfold checkSurveyLimits
    simp only [Bool.false_eq_true, if_false]
    rw [hfilter]
    dsimp only
    rw [if_pos (by rw [he]; simpa using hlate)]
  · intro st surveyId now l s hN hs hid hexp hl h1 hcount
    have hfilter := filter_by_id_eq_singleton st.remote.surveys s surveyId hN hs hid
    unfold checkSurveyLimits
    simp only [Bool.false_eq_true, if_false]
    rw [hfilter]
    dsimp only [noFaults]
    have hexpcond :
        (match s.expires_at with
         | some e => decide (now > e)
         | none => false) = false := by
      cases hee : s.expires_at with
      | none => rfl
      | some e2 =>
        simp only [decide_eq_false_iff_not]
        exact hexp e2 hee
    rw [if_neg (by rw [hexpcond]; exact Bool.false_ne_true)]
    rw [hl]
    dsimp only
    rw [if_neg (by simpa using by omega : ¬(l == 0) = true)]
    rw [if_pos (by omega : responsesCountFor st.remote surveyId ≠ 0 ∧
      responsesCountFor st.remote surveyId ≥ l)]
    rfl

/-- C3 witness: the missing, expired, and limit-reached reasons at
concrete states. -/
theorem claim_C3_witness :
    checkSurveyLimits false (mkState ⟨[], []⟩) noFaults "sx" 0 =
      ⟨false, some "Survey not found"⟩ ∧
    checkSurveyLimits false (mkState c3bDB) ⟨false, false⟩ "s3b" 10 =
      ⟨false, some "Survey has expired"⟩ ∧
    checkSurveyLimits false (mkState c3cDB) noFaults "s3c" 0 =
      ⟨false, some "Response limit reached"⟩ :=
  ⟨claim_C3_amended.1 (mkState ⟨[], []⟩) noFaults "sx" 0
    (fun s hs => absurd hs (List.not_mem_nil s)),
   claim_C3_amended.2.1 (mkState c3bDB) false "s3b" 10 5 c3bSurvey
    (by decide) (by decide) rfl rfl (by decide),
   claim_C3_amended.2.2.1 (mkState c3cDB) "s3c" 0 1 c3cSurvey
    (by decide) (by decide) rfl (fun e he => by simp [c3cSurvey, baseDbSurvey] at he) rfl
    (by decide) (by decide)⟩

/-- C5: `saveSurvey` in remote mode without a user context fails with the
authorization error (performing no write); with a user it attaches the
caller's id as the row owner and classifies backend failures into the
duplicate-id message (code 23505), the permission message (code 42501, or
the access-denied variant on a row-level-security message), and the
generic wrapped message for anything else, which are pairwise distinct; in
local mode it always succeeds against the local store regardless of user
context. -/
theorem claim_C5_saveSurvey_contract :
    (∀ (st : AppState) (survey : Survey) (now : Nat) (gpid : String) (fault : Option PgError),
      saveSurvey false st survey none now gpid fault =
        .error "Authentication required to save surveys") ∧
    (∀ (survey : Survey) (u : User), (buildSurveyData survey u).user_id = u.id) ∧
    (∀ (m : String),
      mapSaveSurveyError ⟨"23505", m⟩ = "A survey with this ID already exists") ∧
    (∀ (m : String),
      mapSaveSurveyError ⟨"42501", m⟩ = "Permission denied. Please ensure you are signed in.") ∧
    (∀ (e : PgError), ¬ e.code = "23505" → ¬ e.code = "42501" →
      strContains e.message "violates row-level security" = false →
      mapSaveSurveyError e = "Database error: " ++ e.message) ∧
    (∀ (st : AppState) (survey : Survey) (u : User) (now : Nat) (gpid : String) (e : PgError),
      ¬ survey.title = "" →
      saveSurvey false st survey (some u) now gpid (some e) = .error (mapSaveSurveyError e)) ∧
    (("A survey with this ID already exists" ≠
        "Permission denied. Please ensure you are signed in.") ∧
     ("A survey with this ID already exists" ≠
        "Access denied. Please sign in to save surveys.") ∧
     ("Permission denied. Please ensure you are signed in." ≠
        "Access denied. Please sign in to save surveys.")) ∧
    (∀ (st : AppState) (survey : Survey) (user : Option User) (now : Nat) (gpid : String)
        (fault : Option PgError),
      saveSurvey true st survey user now gpid fault =
        .ok (survey, { st with localStore := storageSaveSurvey st.localStore survey })) := by
  refine ⟨fun st survey now gpid fault => rfl, fun survey u => rfl,
    fun m => rfl, fun m => rfl, ?_, ?_, by decide,
    fun st survey user now gpid fault => rfl⟩
  · intro e h1 h2 h3
    unfold mapSaveSurveyError
    rw [if_neg (by simpa using h1), if_neg (by simpa using h2), if_neg (by simp [h3])]
  · intro st survey u now gpid e htitle
    unfold saveSurvey
    simp only [Bool.false_eq_true, if_false]
    rw [if_neg (by simpa [buildSurveyData] using htitle)]

/-- C5 witness: the generic error wraps the underlying detail, and a
remote save with a user context surfaces a faulted backend error through
the classifier. -/
theorem claim_C5_witness :
    mapSaveSurveyError c5GenericError = "Database error: " ++ c5GenericError.message ∧
    saveSurvey false (mkState ⟨[], []⟩) c5Survey (some ⟨"u5"⟩) 0 "g" (some c5GenericError) =
      .error (mapSaveSurveyError c5GenericError) :=
  ⟨claim_C5_saveSurvey_contract.2.2.2.2.1 c5GenericError (by decide) (by decide) (by decide),
   claim_C5_saveSurvey_contract.2.2.2.2.2.1 (mkState ⟨[], []⟩) c5Survey ⟨"u5"⟩ 0 "g"
    c5GenericError (by decide)⟩

/-- C6 counterexample: an unclassified backend error whose message reports
infinite policy recursion is mapped to the database-configuration message,
not to the generic database-error message the claim requires for every
error outside the three named classes. -/
theorem claim_C6_counterexample :
    mapSaveResponseError c6RecursionError =
      "Database configuration error. Please contact support." ∧
    ¬ c6RecursionError.code = "23503" ∧
    ¬ c6RecursionError.code = "42501" ∧
    strContains c6RecursionError.message "violates row-level security" = false ∧
    mapSaveResponseError c6RecursionError ≠
      "Database error: " ++ c6RecursionError.message :=
  ⟨rfl, by decide, by decide, by decide, by decide⟩

/-- C6 (amended): `saveResponse` needs no user context (an anonymous
insert of a fresh response against an existing survey succeeds under the
operative policy), and it classifies backend failures into distinct
messages: code 23503 to the not-accepting message, code 42501 to the
permission message, an infinite-recursion message to the configuration
message, a row-level-security message to the inactive-or-expired message,
and everything else to the generic wrapped message. -/
theorem claim_C6_amended :
    (∀ (st : AppState) (r : Response) (sessionUid : Option String),
      st.remote.surveys.any (fun s => s.id == r.surveyId) = true →
      st.remote.responses.any (fun t => t.id == r.id) = false →
      saveResponse false st r sessionUid none =
        .ok (r, { st with remote := { st.remote with responses :=
          st.remote.responses ++
            [{ id := r.id, survey_id := r.surveyId, answers := r.answers,
               submitted_at := r.submittedAt, user_id := sessionUid }] } })) ∧
    (∀ (m : String),
      mapSaveResponseError ⟨"23503", m⟩ = "Survey not found or no longer accepting responses") ∧
    (∀ (m : String),
      mapSaveResponseError ⟨"42501", m⟩ = "Permission denied. Survey may be inactive.") ∧
    (∀ (e : PgError), ¬ e.code = "23503" → ¬ e.code = "42501" →
      strContains e.message "infinite recursion" = true →
      mapSaveResponseError e = "Database configuration error. Please contact support.") ∧
    (∀ (e : PgError), ¬ e.code = "23503" → ¬ e.code = "42501" →
      strContains e.message "infinite recursion" = false →
      strContains e.message "violates row-level security" = true →
      mapSaveResponseError e = "Unable to submit response. Survey may be inactive or expired.") ∧
    (∀ (e : PgError), ¬ e.code = "23503" → ¬ e.code = "42501" →
      strContains e.message "infinite recursion" = false →
      strContains e.message "violates row-level security" = false →
      mapSaveResponseError e = "Database error: " ++ e.message) ∧
    (("Survey not found or no longer accepting responses" ≠
        "Permission denied. Survey may be inactive.") ∧
     ("Survey not found or no longer accepting responses" ≠
        "Database configuration error. Please contact support.") ∧
     ("Survey not found or no longer accepting responses" ≠
        "Unable to submit response. Survey may be inactive or expired.") ∧
     ("Permission denied. Survey may be inactive." ≠
        "Database configuration error. Please contact support.") ∧
     ("Permission denied. Survey may be inactive." ≠
        "Unable to submit response. Survey may be inactive or expired.") ∧
     ("Database configuration error. Please contact support." ≠
        "Unable to submit response. Survey may be inactive or expired.")) ∧
    (∀ (st : AppState) (r : Response) (sessionUid : Option String) (e : PgError),
      saveResponse false st r sessionUid (some e) = .error (mapSaveResponseError e)) := by
  refine ⟨?_, fun m => rfl, fun m => rfl, ?_, ?_, ?_, by decide,
    fun st r sessionUid e => rfl⟩
  · intro st r sessionUid hyes hno
    unfold saveResponse insertResponseRow
    simp [hyes, hno, simplePublicInsertPolicy]
    rfl
  · intro e h1 h2 h3
    unfold mapSaveResponseError
    rw [if_neg (by simpa using h1), if_neg (by simpa using h2), if_pos (by simp [h3])]
  · intro e h1 h2 h3 h4
    unfold mapSaveResponseError
    rw [if_neg (by simpa using h1), if_neg (by simpa using h2), if_neg (by simp [h3]),
      if_pos (by simp [h4])]
  · intro e h1 h2 h3 h4
    unfold mapSaveResponseError
    rw [if_neg (by simpa using h1), if_neg (by simpa using h2), if_neg (by simp [h3]),
      if_neg (by simp [h4])]

/-- C6 witness: a concrete anonymous submission succeeds, and a concrete
unclassified error is wrapped as a generic database error. -/
theorem claim_C6_witness :
    saveResponse false (mkState c6DB) c6Response none none =
      .ok (c6Response, { mkState c6DB with remote := { c6DB with responses :=
        c6DB.responses ++
          [{ id := c6Response.id, survey_id := c6Response.surveyId,
             answers := c6Response.answers, submitted_at := c6Response.submittedAt,
             user_id := none }] } }) ∧
    mapSaveResponseError c6GenericError = "Database error: " ++ c6GenericError.message :=
  ⟨claim_C6_amended.1 (mkState c6DB) c6Response none (by decide) (by decide),
   claim_C6_amended.2.2.2.2.2.1 c6GenericError (by decide) (by decide) (by decide) (by decide)⟩

/-- With distinct survey ids, filtering on a predicate that forces the id
to equal `sid` and that the stored survey `s` satisfies yields exactly
`[s]`. -/
theorem filter_eq_singleton_of_unique_id (l : List DatabaseSurvey) (s : DatabaseSurvey)
    (sid : String) (p : DatabaseSurvey → Bool)
    (hN : (l.map (fun t => t.id)).Nodup) (hs : s ∈ l) (hid : s.id = sid)
    (hps : p s = true) (hp : ∀ t, p t = true → t.id = sid) :
    l.filter p = [s] := by
  induction l with
  | nil => cases hs
  | cons a as ih =>
    rw [List.map_cons, List.nodup_cons] at hN
    rcases List.mem_cons.mp hs with h | h
    · subst h
      rw [List.filter_cons, if_pos hps]
      have hrest : as.filter p = [] := by
        apply List.filter_eq_nil_iff.mpr
        intro t ht htp
        apply hN.1
        rw [hid, ← hp t htp]
        exact List.mem_map_of_mem (fun t => t.id) ht
      rw [hrest]
    · have hpa : ¬ p a = true := by
        intro hcontra
        apply hN.1
        rw [hp a hcontra, ← hid]
        exact List.mem_map_of_mem (fun t => t.id) h
      rw [List.filter_cons, if_neg hpa]
      exact ih hN.2 h

/-- C7: with a user context, `getResponsesForSurvey` fails with the
access-denied error unless the user owns the referenced survey; otherwise
it returns all of that survey's responses ordered by submission time,
descending (a permutation of the survey's stored responses, sorted).
Stated under the primary-key invariant that stored survey ids are
distinct. -/
theorem claim_C7_getResponsesForSurvey (st : AppState) (surveyId : String) (u : User)
    (hN : (st.remote.surveys.map (fun t => t.id)).Nodup) :
    ((∀ s ∈ st.remote.surveys, ¬ (s.id = surveyId ∧ s.user_id = some u.id)) →
      getResponsesForSurvey false st surveyId (some u) =
        .error "Survey not found or access denied") ∧
    (∀ s ∈ st.remote.surveys, s.id = surveyId → s.user_id = some u.id →
      getResponsesForSurvey false st surveyId (some u) =
        .ok ((sortResponsesBySubmittedDesc
          (st.remote.responses.filter (fun r => r.survey_id == surveyId))).map
            transformDatabaseResponse)) ∧
    (((sortResponsesBySubmittedDesc
        (st.remote.responses.filter (fun r => r.survey_id == surveyId))).map
          transformDatabaseResponse).Sorted
      (fun x y => y.submittedAt ≤ x.submittedAt)) ∧
    (List.Perm
      ((sortResponsesBySubmittedDesc
        (st.remote.responses.filter (fun r => r.survey_id == surveyId))).map
          transformDatabaseResponse)
      ((st.remote.responses.filter (fun r => r.survey_id == surveyId)).map
        transformDatabaseResponse)) := by
  refine ⟨?_, ?_, ?_, ?_⟩
  · intro hnot
    have hfilter : st.remote.surveys.filter
        (fun s => s.id == surveyId && s.user_id == some u.id) = [] := by
      apply List.filter_eq_nil_iff.mpr
      intro t ht hcond
      rw [Bool.and_eq_true] at hcond
      exact hnot t ht ⟨beq_iff_eq.mp hcond.1, beq_iff_eq.mp hcond.2⟩
    unfold getResponsesForSurvey
    dsimp only
    rw [hfilter]
    rfl
  · intro s hs hid huid
    have hfilter := filter_eq_singleton_of_unique_id st.remote.surveys s surveyId
      (fun t => t.id == surveyId && t.user_id == some u.id) hN hs hid
      (by simp [hid, huid])
      (fun t ht => by
        rw [Bool.and_eq_true] at ht
        exact beq_iff_eq.mp ht.1)
    unfold getResponsesForSurvey
    dsimp only
    rw [hfilter]
    rfl
  · have h := List.sorted_insertionSort
      (fun a b : DatabaseResponse => b.submitted_at ≤ a.submitted_at)
      (st.remote.responses.filter (fun r => r.survey_id == surveyId))
    unfold sortResponsesBySubmittedDesc
    exact List.pairwise_map.mpr h
  · unfold sortResponsesBySubmittedDesc
    exact (List.perm_insertionSort
      (fun a b : DatabaseResponse => b.submitted_at ≤ a.submitted_at)
      (st.remote.responses.filter (fun r => r.survey_id == surveyId))).map
        transformDatabaseResponse

/-- C7 witness: the survey owner receives the survey's responses, sorted
by submission time, descending. -/
theorem claim_C7_witness :
    (getResponsesForSurvey false (mkState c7DB) "s7" (some ⟨"u7"⟩) =
      .ok ((sortResponsesBySubmittedDesc
        ((mkState c7DB).remote.responses.filter (fun r => r.survey_id == "s7"))).map
          transformDatabaseResponse)) ∧
    (((sortResponsesBySubmittedDesc
        ((mkState c7DB).remote.responses.filter (fun r => r.survey_id == "s7"))).map
          transformDatabaseResponse).Sorted
      (fun x y => y.submittedAt ≤ x.submittedAt)) ∧
    (List.Perm
      ((sortResponsesBySubmittedDesc
        ((mkState c7DB).remote.responses.filter (fun r => r.survey_id == "s7"))).map
          transformDatabaseResponse)
      (((mkState c7DB).remote.responses.filter (fun r => r.survey_id == "s7")).map
        transformDatabaseResponse)) := by
  have R := claim_C7_getResponsesForSurvey (mkState c7DB) "s7" ⟨"u7"⟩ (by decide)
  exact ⟨R.2.1 c7Survey (by decide) rfl rfl, R.2.2.1, R.2.2.2⟩

/-- What a successful `surveys` upsert guarantees about the written row:
it is stored, owned by the payload's user, and carries every payload
column that was present. -/
theorem upsertSurveyRow_ok_spec (db : RemoteDB) (p : SurveyRowData) (now : Nat)
    (gpid : String) (row : DatabaseSurvey) (db2 : RemoteDB)
    (h : upsertSurveyRow db p now gpid = .ok (row, db2)) :
    row ∈ db2.surveys ∧ row.user_id = some p.user_id ∧ row.id = p.id ∧
    row.title = p.title ∧ row.description = p.description ∧
    row.questions = p.questions ∧ row.is_active = p.is_active ∧
    (∀ x, p.public_id = some x → row.public_id = x) ∧
    (∀ x, p.allow_public_access = some x → row.allow_public_access = x) ∧
    (∀ x, p.response_limit = some x → row.response_limit = some x) ∧
    (∀ x, p.expires_at = some x → row.expires_at = some x) := by
  unfold upsertSurveyRow at h
  cases hfind : db.surveys.find? (fun r => r.id == p.id) with
  | some old =>
    rw [hfind] at h
    dsimp only at h
    by_cases hown : old.user_id ≠ some p.user_id
    · rw [if_pos hown] at h
      simp at h
    · rw [if_neg hown] at h
      by_cases hdup : (db.surveys.any
          (fun r => r.id != p.id &&
            r.public_id == (applyUpsertColumns old p now).public_id)) = true
      · rw [if_pos hdup] at h
        simp at h
      · rw [if_neg hdup] at h
        have hpair := Except.ok.inj h
        have hrow : applyUpsertColumns old p now = row := congrArg Prod.fst hpair
        have hdb :
            ({ db with surveys := List.map (fun r =>
                if r.id == p.id then applyUpsertColumns old p now else r) db.surveys } :
              RemoteDB) = db2 := congrArg Prod.snd hpair
        subst hrow
        subst hdb
        have hold : old ∈ db.surveys := List.mem_of_find?_eq_some hfind
        have hoid : (old.id == p.id) = true := by
          simpa using List.find?_some hfind
        refine ⟨?_, rfl, beq_iff_eq.mp hoid, rfl, rfl, rfl, rfl, ?_, ?_, ?_, ?_⟩
        · dsimp only
          apply List.mem_map.mpr
          exact ⟨old, hold, by rw [hoid]; rfl⟩
        · intro x hx
          dsimp only [applyUpsertColumns]
          rw [hx]
          rfl
        · intro x hx
          dsimp only [applyUpsertColumns]
          rw [hx]
          rfl
        · intro x hx
          dsimp only [applyUpsertColumns]
          rw [hx]
        · intro x hx
          dsimp only [applyUpsertColumns]
          rw [hx]
  | none =>
    rw [hfind] at h
    dsimp only at h
    by_cases hdup : (db.surveys.any
        (fun r => r.public_id == (insertRowOfPayload p now gpid).public_id)) = true
    · rw [if_pos hdup] at h
      simp at h
    · rw [if_neg hdup] at h
      have hpair := Except.ok.inj h
      have hrow : insertRowOfPayload p now gpid = row := congrArg Prod.fst hpair
      have hdb : ({ db with surveys := insertRowOfPayload p now gpid :: db.surveys } :
          RemoteDB) = db2 := congrArg Prod.snd hpair
      subst hrow
      subst hdb
      refine ⟨List.mem_cons_self _ _, rfl, rfl, rfl, rfl, rfl, rfl, ?_, ?_, ?_, ?_⟩
      · intro x hx
        dsimp only [insertRowOfPayload]
        rw [hx]
        rfl
      · intro x hx
        dsimp only [insertRowOfPayload]
        rw [hx]
        rfl
      · intro x hx
        dsimp only [insertRowOfPayload]
        rw [hx]
      · intro x hx
        dsimp only [insertRowOfPayload]
        rw [hx]

/-- C8 (amended): when the saved survey's optional fields are all set, a
successful remote `saveSurvey` under an owner context makes `getSurveys`
under the same context include a survey agreeing with the saved one on
every field except the server-assigned creation timestamp. -/
theorem claim_C8_amended (st : AppState) (S : Survey) (u : User) (now : Nat) (gpid : String)
    (s2 : Survey) (st2 : AppState)
    (hpid : S.publicId.isSome = true) (hapa : S.allowPublicAccess.isSome = true)
    (hlim : S.responseLimit.isSome = true) (hexp : S.expiresAt.isSome = true)
    (hsave : saveSurvey false st S (some u) now gpid none = .ok (s2, st2)) :
    (getSurveys false st2 (some u)).any (surveyMatchesExceptCreatedAt S) = true := by
  unfold saveSurvey at hsave
  simp only [Bool.false_eq_true, if_false] at hsave
  by_cases ht : ((buildSurveyData S u).title == "") = true
  · rw [if_pos ht] at hsave
    simp at hsave
  · rw [if_neg ht] at hsave
    cases hup : upsertSurveyRow st.remote (buildSurveyData S u) now gpid with
    | error e =>
      rw [hup] at hsave
      simp at hsave
    | ok pr =>
      obtain ⟨row, db2⟩ := pr
      rw [hup] at hsave
      have hpair := Except.ok.inj hsave
      have hst2 : ({ st with remote := db2 } : AppState) = st2 := congrArg Prod.snd hpair
      subst hst2
      obtain ⟨hmem, huid, hid, htitle, hdesc, hq, hact, hpub, hpa, hrl, hea⟩ :=
        upsertSurveyRow_ok_spec st.remote (buildSurveyData S u) now gpid row db2 hup
      unfold getSurveys getSurveysRemoteRows sortSurveysByCreatedDesc
      simp only [Bool.false_eq_true, if_false]
      rw [List.any_eq_true]
      have huser : (row.user_id == some u.id) = true := by
        rw [huid]
        exact beq_self_eq_true _
      refine ⟨transformDatabaseSurvey row, ?_, ?_⟩
      · apply List.mem_map_of_mem
        rw [List.mem_insertionSort]
        apply List.mem_filter.mpr
        refine ⟨List.mem_filter.mpr ⟨hmem, ?_⟩, huser⟩
        unfold authenticatedSelectSurveysPolicy
        rw [huser]
        rfl
      · obtain ⟨x1, hx1⟩ := Option.isSome_iff_exists.mp hpid
        obtain ⟨x2, hx2⟩ := Option.isSome_iff_exists.mp hapa
        obtain ⟨x3, hx3⟩ := Option.isSome_iff_exists.mp hlim
        obtain ⟨x4, hx4⟩ := Option.isSome_iff_exists.mp hexp
        have h1 : row.public_id = x1 := hpub x1 hx1
        have h2 : row.allow_public_access = x2 := hpa x2 hx2
        have h3 : row.response_limit = some x3 := hrl x3 hx3
        have h4 : row.expires_at = some x4 := hea x4 hx4
        unfold surveyMatchesExceptCreatedAt transformDatabaseSurvey
        dsimp only
        simp [hid, htitle, hdesc, hq, hact, h1, h2, h3, h4, hx1, hx2, hx3, hx4,
          buildSurveyData]

/-- C8 counterexample: a successful save of a survey with an unset
optional field does not round-trip.  With `publicId` unset, the fresh
insert stores the server-generated token, and with `responseLimit` unset
on an id that already exists, the upsert keeps the old row's limit; in
both cases `getSurveys` under the owner context afterwards holds no survey
agreeing with the saved one outside `createdAt`. -/
theorem claim_C8_counterexample :
    c8NoPidSurvey.publicId = none ∧
    ((saveSurvey false (mkState ⟨[], []⟩) c8NoPidSurvey (some ⟨"U"⟩) 7 "gen" none).map
      (fun pr => (getSurveys false pr.2 (some ⟨"U"⟩)).any
        (surveyMatchesExceptCreatedAt c8NoPidSurvey))) = .ok false ∧
    ((saveSurvey false (mkState ⟨[], []⟩) c8NoPidSurvey (some ⟨"U"⟩) 7 "gen" none).map
      (fun pr => pr.1.publicId)) = .ok (some "gen") ∧
    c8NoLimitSurvey.responseLimit = none ∧
    c8OldRow.response_limit = some 5 ∧
    ((saveSurvey false (mkState ⟨[c8OldRow], []⟩) c8NoLimitSurvey (some ⟨"U"⟩) 7 "gen" none).map
      (fun pr => (getSurveys false pr.2 (some ⟨"U"⟩)).any
        (surveyMatchesExceptCreatedAt c8NoLimitSurvey))) = .ok false ∧
    ((saveSurvey false (mkState ⟨[c8OldRow], []⟩) c8NoLimitSurvey (some ⟨"U"⟩) 7 "gen" none).map
      (fun pr => pr.1.responseLimit)) = .ok (some 5) :=
  ⟨rfl, rfl, rfl, rfl, rfl, rfl, rfl⟩

/-- C8 witness: with all optional fields set, the saved survey reappears
in the owner's `getSurveys`, agreeing on everything but `createdAt`. -/
theorem claim_C8_witness :
    (getSurveys false c8wState2 (some ⟨"U"⟩)).any
      (surveyMatchesExceptCreatedAt c8FullSurvey) = true :=
  claim_C8_amended (mkState ⟨[], []⟩) c8FullSurvey ⟨"U"⟩ 7 "gen" c8wReturned c8wState2
    rfl rfl rfl rfl rfl
